import Mathlib

/-!
Shallow embedding of the storefront backend (Django app `core`):
`models.py` (Product, Order, OrderItem) and `views.py`
(`create_checkout_session`, `stripe_webhook`, `order_status`).

Machine integers of the source are Python arbitrary-precision ints,
embedded as `Int`.  Database rows are lists; the uniqueness constraints
of `models.py` (`Order.session_id` unique, `OrderItem` unique_together
(order, product)) appear as explicit checks in the persistence step,
whose failure is the `IntegrityError` of the source with full rollback
(`transaction.atomic`).
-/

namespace Shop

/-- Status enum of `Order` (models.py: STATUS_PENDING/STATUS_PAID/STATUS_FAILED). -/
inductive OrderStatus where
  | PENDING
  | PAID
  | FAILED
deriving DecidableEq, Fintype

/-- Catalog entry (models.py `Product`): integer primary key, name,
price in integer minor units. -/
structure Product where
  id : Int
  name : String
  price_cents : Int
deriving DecidableEq

/-- Order row (models.py `Order`); `created_at` is irrelevant to every
claim and omitted.  Orders are identified by their unique `session_id`. -/
structure Order where
  session_id : String
  status : OrderStatus
  total_cents : Int
deriving DecidableEq

/-- Line-item row (models.py `OrderItem`): the owning order is referenced
through its unique session identifier, the product through its id. -/
structure OrderItem where
  order_session : String
  product_id : Int
  quantity : Int
deriving DecidableEq

/-- The order ledger: the mutable database state the views touch. -/
structure Ledger where
  orders : List Order
  items : List OrderItem
deriving DecidableEq

def Ledger.empty : Ledger := ⟨[], []⟩

/-- A JSON value in a cart line, as the view sees it after `json.loads`:
either a Python int or anything else (string, float, null, absent ...). -/
inductive JVal where
  | jint (n : Int)
  | jother
deriving DecidableEq

/-- One entry of the request's `items` list.  `product_id` is
`item.get('product_id')` (absent = non-int = `jother`), `quantity` is
`item.get('quantity', 0)` (absent = `jint 0`). -/
structure CartLine where
  product_id : JVal
  quantity : JVal
deriving DecidableEq

/-- Insertion sort by product id, embedding `Product.objects.order_by('id')`. -/
def insertById (p : Product) : List Product → List Product
  | [] => [p]
  | q :: rest => if p.id ≤ q.id then p :: q :: rest else q :: insertById p rest

def sortById : List Product → List Product
  | [] => []
  | p :: rest => insertById p (sortById rest)

/-- views.py line 81: `allowed_products = list(Product.objects.order_by('id')[:3])`. -/
def allowedProducts (catalog : List Product) : List Product :=
  (sortById catalog).take 3

/-- The client-input failures of `create_checkout_session` (each is an
immediate 400 JsonResponse in the source). -/
inductive CheckoutErr where
  | noItems             -- 'No items in cart'
  | invalidProductId    -- 'Invalid product_id'
  | invalidQuantity (pid : Int)   -- 'Invalid quantity for product ...'
  | productNotFound (pid : Int)   -- 'Product ... not found'
  | emptyAfterFilter    -- 'Please select at least one item'
deriving DecidableEq

/-- Outcome of the outbound `stripe.checkout.Session.create` call. -/
inductive StripeErr where
  | auth    -- stripe.error.AuthenticationError
  | other   -- any other stripe.error.StripeError
deriving DecidableEq

/-- Response of `create_checkout_session`. -/
inductive CheckoutResp where
  | ok (sessionId : String) (demo : Bool)
  | badRequest (e : CheckoutErr)
  | conflict          -- 409 'Duplicate checkout session. Please retry.'
  | stripeAuthError   -- 500, invalid API key
  | stripeError       -- 500, other stripe error
  | serverError       -- 500, outer `except Exception`
deriving DecidableEq

/-- HTTP status code of each checkout response, as in the source. -/
def checkoutHttpStatus : CheckoutResp → Nat
  | .ok _ _ => 200
  | .badRequest _ => 400
  | .conflict => 409
  | .stripeAuthError => 500
  | .stripeError => 500
  | .serverError => 500

/-- The validation loop of views.py lines 89-120, with its two
accumulators (`order_items` and `total_cents`).  Each cart line is
checked in order: `product_id` must be an int, `quantity` must be a
non-negative int, zero quantities are skipped, then the product id is
resolved against the allowed catalog.  The first failing check returns
its 400 error.  Product ids are primary keys, hence distinct, so the
dict `allowed_by_id` is embedded as `find?` on the allowed list. -/
def processItems (allowed : List Product) :
    List CartLine → List (Product × Int) → Int →
    Except CheckoutErr (List (Product × Int) × Int)
  | [], acc, tot => .ok (acc, tot)
  | c :: rest, acc, tot =>
    match c.product_id with
    | .jother => .error .invalidProductId
    | .jint pid =>
      match c.quantity with
      | .jother => .error (.invalidQuantity pid)
      | .jint q =>
        if q < 0 then .error (.invalidQuantity pid)
        else if q = 0 then processItems allowed rest acc tot
        else
          match allowed.find? (fun p => p.id == pid) with
          | none => .error (.productNotFound pid)
          | some p => processItems allowed rest (acc ++ [(p, q)]) (tot + p.price_cents * q)

/-- `Order.session_id` is a unique column: true when the id is taken. -/
def sessionTaken (l : Ledger) (sid : String) : Bool :=
  l.orders.any (fun o => o.session_id == sid)

/-- Two collected line items for the same product violate the
`unique_together (order, product)` constraint on `OrderItem`. -/
def hasDupProduct : List (Product × Int) → Bool
  | [] => false
  | x :: rest => rest.any (fun y => y.1.id == x.1.id) || hasDupProduct rest

/-- The atomic write of an Order plus its OrderItems
(`transaction.atomic` wrapping `Order.objects.create` and
`OrderItem.objects.bulk_create`).  `none` is an `IntegrityError`: either
uniqueness constraint fires and the transaction rolls back, leaving the
ledger untouched. -/
def persistOrder (l : Ledger) (sid : String) (st : OrderStatus) (total : Int)
    (ois : List (Product × Int)) : Option Ledger :=
  if sessionTaken l sid || hasDupProduct ois then none
  else some { orders := l.orders ++ [⟨sid, st, total⟩],
              items := l.items ++ ois.map (fun x => ⟨sid, x.1.id, x.2⟩) }

/-- views.py `create_checkout_session` (lines 73-181).  External
nondeterminism is passed in: the configuration flags, the outcome the
Stripe call would have (`stripeResult`), and the uuid-generated demo
session id (`freshDemoId`).  In demo mode the atomic write is not
wrapped in the `except IntegrityError` handler, so its failure falls
through to the outer `except Exception` (generic 500); in real mode it
is caught and becomes the 409 conflict. -/
def create_checkout_session (demoMode keyPresent : Bool) (catalog : List Product)
    (stripeResult : Except StripeErr String) (freshDemoId : String)
    (l : Ledger) (items : List CartLine) : Ledger × CheckoutResp :=
  if items.isEmpty then (l, .badRequest .noItems)
  else
    match processItems (allowedProducts catalog) items [] 0 with
    | .error e => (l, .badRequest e)
    | .ok (ois, total) =>
      if ois.isEmpty then (l, .badRequest .emptyAfterFilter)
      else if demoMode || !keyPresent then
        match persistOrder l freshDemoId .PAID total ois with
        | none => (l, .serverError)
        | some l2 => (l2, .ok freshDemoId true)
      else
        match stripeResult with
        | .error .auth => (l, .stripeAuthError)
        | .error .other => (l, .stripeError)
        | .ok sid =>
          match persistOrder l sid .PENDING total ois with
          | none => (l, .conflict)
          | some l2 => (l2, .ok sid false)

/-- Result of `stripe.Webhook.construct_event`: a verified event with its
type and embedded session id, or one of the two rejection modes. -/
inductive VerifyResult where
  | ok (eventType : String) (sessionId : String)
  | badPayload     -- ValueError
  | badSignature   -- stripe.error.SignatureVerificationError
deriving DecidableEq

/-- Response of the webhook view. -/
inductive WebhookOutcome where
  | ack            -- 200 JsonResponse status success
  | errSecret      -- 500 'Webhook secret not configured'
  | errPayload     -- 400 'Invalid payload'
  | errSignature   -- 400 'Invalid signature'
deriving DecidableEq, Fintype

/-- `Order.objects.get(session_id=...)`: `session_id` is unique, so the
first (only) match. -/
def findOrder (l : Ledger) (sid : String) : Option Order :=
  l.orders.find? (fun o => o.session_id == sid)

def statusOf (l : Ledger) (sid : String) : Option OrderStatus :=
  (findOrder l sid).map Order.status

/-- The row update `order.status = PAID; order.save(...)`, applied to the
unique row whose session id matches. -/
def setPaid (sid : String) (o : Order) : Order :=
  if o.session_id = sid then { o with status := .PAID } else o

/-- The reconciliation block of views.py lines 226-239 (inside
`transaction.atomic` with `select_for_update`): load the order by
session id; missing order or already-PAID order acknowledges without
any write; otherwise the status becomes PAID. -/
def handleCompleted (l : Ledger) (sid : String) : Ledger × WebhookOutcome :=
  match findOrder l sid with
  | none => (l, .ack)
  | some o =>
    if o.status = .PAID then (l, .ack)
    else ({ l with orders := l.orders.map (setPaid sid) }, .ack)

/-- views.py `stripe_webhook` (lines 186-241): secret check, signature /
payload verification, event-type filter, then reconciliation.  Any event
type other than 'checkout.session.completed' is acknowledged with no
effect. -/
def stripe_webhook (secretConfigured : Bool) (v : VerifyResult) (l : Ledger) :
    Ledger × WebhookOutcome :=
  if !secretConfigured then (l, .errSecret)
  else
    match v with
    | .badPayload => (l, .errPayload)
    | .badSignature => (l, .errSignature)
    | .ok ty sid =>
      if ty = "checkout.session.completed" then handleCompleted l sid
      else (l, .ack)

def statusName : OrderStatus → String
  | .PENDING => "PENDING"
  | .PAID => "PAID"
  | .FAILED => "FAILED"

/-- views.py `order_status` (lines 244-261).  The query parameter is
`request.GET.get('session_id', '')`, so an absent parameter reads as the
empty string; an empty string is falsy and yields the 400.  A read-only
view: it returns no ledger because it performs no write. -/
def order_status (l : Ledger) (sessionParam : Option String) : Nat × String :=
  let sid := sessionParam.getD ""
  if sid = "" then (400, "Missing session_id")
  else
    match findOrder l sid with
    | none => (200, "PENDING")
    | some o => (200, statusName o.status)

/-- Modelled from the spec: the abandoned/cancelled path
"PENDING → FAILED" (spec section 3, Order invariant), described as a
transition of the system but "not exercised by the webhook flow shown";
no code under src/ performs it.  Faithful to the spec's words, it moves
a PENDING order (and only a PENDING order) to FAILED. -/
def setFailed (sid : String) (o : Order) : Order :=
  if o.session_id = sid ∧ o.status = .PENDING then { o with status := .FAILED } else o

/-- Modelled from the spec: the ledger after the abandoned/cancelled
path marks the order of session `sid` FAILED. -/
def markFailed (l : Ledger) (sid : String) : Ledger :=
  { l with orders := l.orders.map (setFailed sid) }

/-- The operations that touch the ledger, with their external
nondeterminism as parameters. -/
inductive Action where
  | checkout (demoMode keyPresent : Bool) (catalog : List Product)
      (stripeResult : Except StripeErr String) (freshDemoId : String)
      (items : List CartLine)
  | webhook (secretConfigured : Bool) (v : VerifyResult)
  | statusQuery (sessionParam : Option String)
  | abandon (sid : String)

/-- Effect of each operation on the ledger.  `order_status` performs no
write, so its step is the identity; `abandon` is the spec-modelled
PENDING → FAILED path. -/
def stepLedger (l : Ledger) : Action → Ledger
  | .checkout dm kp catalog sr fid items =>
      (create_checkout_session dm kp catalog sr fid l items).1
  | .webhook sc v => (stripe_webhook sc v l).1
  | .statusQuery _ => l
  | .abandon sid => markFailed l sid

/-- Ledgers reachable from the empty database through the system's
operations. -/
inductive Reachable : Ledger → Prop where
  | init : Reachable Ledger.empty
  | step (a : Action) {l : Ledger} : Reachable l → Reachable (stepLedger l a)

/-- Delivering the same verified 'checkout.session.completed' event for
session `sid` to the webhook view, `n` times in sequence. -/
def deliverCompletedN (sid : String) : Nat → Ledger → Ledger
  | 0, l => l
  | n + 1, l =>
      (stripe_webhook true (.ok "checkout.session.completed" sid) (deliverCompletedN sid n l)).1

/-- Number of deliveries, out of the first `n`, that change the order's
status: the count of applied transitions the idempotence claim speaks
about. -/
def transitionCount (sid : String) (l : Ledger) (n : Nat) : Nat :=
  (List.range n).countP (fun k =>
    decide (statusOf (deliverCompletedN sid k l) sid ≠ statusOf (deliverCompletedN sid (k + 1) l) sid))

/-- Spec-side description of one well-formed cart line, matching the
checks of the validation loop: integer product id, non-negative integer
quantity, and (unless the quantity is zero, in which case the line is
dropped before the lookup) a product id listed in the allowed catalog. -/
def lineValid (allowed : List Product) (c : CartLine) : Bool :=
  match c.product_id, c.quantity with
  | .jint pid, .jint q => decide (0 ≤ q) && (decide (q = 0) || allowed.any (fun p => p.id == pid))
  | _, _ => false

/-- A line with a positive integer quantity (one that survives filtering). -/
def posLine (c : CartLine) : Bool :=
  match c.quantity with
  | .jint q => decide (0 < q)
  | .jother => false

/-- A quantity value the loop rejects: negative, or not an integer. -/
def qtyInvalid : JVal → Bool
  | .jint n => decide (n < 0)
  | .jother => true

/-- Spec-side reference: the cart after dropping zero-quantity lines,
each surviving line resolved against the allowed catalog. -/
def filteredCart (allowed : List Product) (items : List CartLine) : List (Product × Int) :=
  items.filterMap (fun c =>
    match c.product_id, c.quantity with
    | .jint pid, .jint q =>
        if q ≤ 0 then none
        else (allowed.find? (fun p => p.id == pid)).map (fun p => (p, q))
    | _, _ => none)

/-- The three products installed by `seed_products.py` (ids as assigned
by a fresh sequential primary key). -/
def cat3 : List Product :=
  [⟨1, "Laptop", 99999⟩, ⟨2, "Mouse", 2999⟩, ⟨3, "Keyboard", 7999⟩]

/-!
Interleaving model for the race of two webhook invocations for the same
session (views.py lines 226-235).  The locked section is modelled at the
granularity the database gives it: `select_for_update().get(...)`
acquires the row lock and reads the status (blocking while the other
invocation holds the lock), and the commit step performs the idempotency
check, the conditional `save`, and the lock release at the end of
`transaction.atomic`.  Both code paths of the commit return the success
JsonResponse.
-/

/-- Program counter of one racing webhook invocation. -/
inductive RacePC where
  | start
  | locked (observed : OrderStatus)
  | done (wrote : Bool) (resp : WebhookOutcome)
deriving DecidableEq

/-- The row lock of `select_for_update`: free, or held by one of the two
racing invocations. -/
inductive LockState where
  | free
  | held1
  | held2
deriving DecidableEq

/-- Shared state of the race: the order row's status, the row lock, and
both program counters. -/
structure RaceState where
  status : OrderStatus
  lock : LockState
  pc1 : RacePC
  pc2 : RacePC
deriving DecidableEq

/-- Both invocations start before the order's PENDING row, lock free. -/
def raceInit : RaceState := ⟨.PENDING, .free, .start, .start⟩

/-- One scheduler step: the named thread advances if it can.
`select_for_update` blocks while the other invocation holds the row
lock, so `start` advances only when the lock is free, acquiring it and
reading the current status; the commit step of the locked section
applies the idempotency check (already-PAID acknowledges with no write,
otherwise the status is written to PAID) and releases the lock at the
end of `transaction.atomic`.  Both code paths answer the success
acknowledgment. -/
def raceStep (s : RaceState) : Bool → RaceState
  | true =>
    match s.pc2 with
    | .start =>
        if s.lock = .free then { s with lock := .held2, pc2 := .locked s.status } else s
    | .locked ob =>
        if ob = .PAID then { s with lock := .free, pc2 := .done false .ack }
        else { s with status := .PAID, lock := .free, pc2 := .done true .ack }
    | .done _ _ => s
  | false =>
    match s.pc1 with
    | .start =>
        if s.lock = .free then { s with lock := .held1, pc1 := .locked s.status } else s
    | .locked ob =>
        if ob = .PAID then { s with lock := .free, pc1 := .done false .ack }
        else { s with status := .PAID, lock := .free, pc1 := .done true .ack }
    | .done _ _ => s

/-- Run the race under an arbitrary scheduler (each entry names the
thread that moves next; a blocked thread simply does not advance). -/
def runRace (sched : List Bool) : RaceState := sched.foldl raceStep raceInit

def wrotePC : RacePC → Bool
  | .done w _ => w
  | _ => false

def isDone : RacePC → Bool
  | .done _ _ => true
  | _ => false

/-- Inductive invariant of the race: a thread inside the locked section
holds the lock and its observed status is current; the row is PAID
exactly when some thread wrote it; never do both threads write; a
finished thread answered with the success acknowledgment; and once both
threads finished the row is PAID. -/
def raceInv (s : RaceState) : Prop :=
  (∀ ob, s.pc1 = .locked ob → s.lock = .held1 ∧ ob = s.status) ∧
  (∀ ob, s.pc2 = .locked ob → s.lock = .held2 ∧ ob = s.status) ∧
  (s.status = .PAID ↔ (wrotePC s.pc1 = true ∨ wrotePC s.pc2 = true)) ∧
  ¬(wrotePC s.pc1 = true ∧ wrotePC s.pc2 = true) ∧
  (∀ w r, s.pc1 = .done w r → r = .ack) ∧
  (∀ w r, s.pc2 = .done w r → r = .ack) ∧
  (isDone s.pc1 = true → isDone s.pc2 = true → s.status = .PAID)

/-! Helper lemmas. -/

theorem isEmpty_false_of_ne_nil {α : Type} {l : List α} (h : l ≠ []) :
    l.isEmpty = false := by
  cases l with
  | nil => exact absurd rfl h
  | cons x xs => rfl

theorem find?_map_presId (f : Order → Order)
    (hf : ∀ o, (f o).session_id = o.session_id) (os : List Order) (sid : String) :
    (os.map f).find? (fun o => o.session_id == sid) =
      Option.map f (os.find? (fun o => o.session_id == sid)) := by
  have hp : ((fun o => o.session_id == sid) ∘ f) = (fun o : Order => o.session_id == sid) := by
    funext o
    simp [Function.comp, hf]
  rw [List.find?_map, hp]

theorem setPaid_session_id (sid : String) (o : Order) :
    (setPaid sid o).session_id = o.session_id := by
  unfold setPaid
  split <;> rfl

theorem findOrder_some (l : Ledger) (sid : String) (st : OrderStatus)
    (h : statusOf l sid = some st) :
    ∃ o, findOrder l sid = some o ∧ o.status = st ∧ o.session_id = sid := by
  unfold statusOf at h
  cases hfo : findOrder l sid with
  | none => rw [hfo] at h; simp at h
  | some o =>
    rw [hfo] at h
    simp at h
    refine ⟨o, rfl, h, ?_⟩
    have := List.find?_some hfo
    simpa using this

theorem handleCompleted_ack (l : Ledger) (sid : String) :
    (handleCompleted l sid).2 = .ack := by
  unfold handleCompleted
  cases findOrder l sid with
  | none => rfl
  | some o =>
    by_cases h : o.status = .PAID
    · simp [h]
    · simp [h]

theorem webhook_completed (secretOK : Bool) (l : Ledger) (sid : String)
    (hs : secretOK = true) :
    stripe_webhook secretOK (.ok "checkout.session.completed" sid) l =
      handleCompleted l sid := by
  subst hs
  simp [stripe_webhook]

theorem handleCompleted_paid (l : Ledger) (sid : String)
    (h : statusOf l sid = some .PAID) :
    handleCompleted l sid = (l, .ack) := by
  obtain ⟨o, ho, hst, _⟩ := findOrder_some l sid .PAID h
  simp [handleCompleted, ho, hst]

theorem handleCompleted_pending (l : Ledger) (sid : String)
    (h : statusOf l sid = some .PENDING) :
    handleCompleted l sid =
      ({ l with orders := l.orders.map (setPaid sid) }, .ack) := by
  obtain ⟨o, ho, hst, _⟩ := findOrder_some l sid .PENDING h
  simp [handleCompleted, ho, hst]

theorem statusOf_map_setPaid (l : Ledger) (sid : String) (st : OrderStatus)
    (h : statusOf l sid = some st) :
    statusOf { l with orders := l.orders.map (setPaid sid) } sid = some .PAID := by
  obtain ⟨o, ho, hst, hsid⟩ := findOrder_some l sid st h
  have ho2 : l.orders.find? (fun o2 => o2.session_id == sid) = some o := ho
  unfold statusOf findOrder
  rw [find?_map_presId (setPaid sid) (setPaid_session_id sid) l.orders sid, ho2]
  simp [setPaid, hsid]

theorem processItems_ok_of_valid (allowed : List Product) (items : List CartLine)
    (acc : List (Product × Int)) (tot : Int)
    (hvalid : ∀ c ∈ items, lineValid allowed c = true) :
    processItems allowed items acc tot =
      .ok (acc ++ filteredCart allowed items,
           tot + ((filteredCart allowed items).map (fun x => x.1.price_cents * x.2)).sum) := by
  induction items generalizing acc tot with
  | nil => simp [processItems, filteredCart]
  | cons c rest ih =>
    have hc := hvalid c (List.mem_cons_self c rest)
    have hrest : ∀ x ∈ rest, lineValid allowed x = true :=
      fun x hx => hvalid x (List.mem_cons_of_mem c hx)
    obtain ⟨pidv, qv⟩ := c
    cases pidv with
    | jother => simp [lineValid] at hc
    | jint pid =>
      cases qv with
      | jother => simp [lineValid] at hc
      | jint q =>
        simp only [lineValid, Bool.and_eq_true, Bool.or_eq_true, decide_eq_true_eq] at hc
        obtain ⟨hq0, hrestc⟩ := hc
        have hnlt : ¬ q < 0 := not_lt.mpr hq0
        by_cases hz : q = 0
        · subst hz
          have h1 : processItems allowed (⟨JVal.jint pid, JVal.jint 0⟩ :: rest) acc tot =
              processItems allowed rest acc tot := by
            simp [processItems]
          have h2 : filteredCart allowed (⟨JVal.jint pid, JVal.jint 0⟩ :: rest) =
              filteredCart allowed rest := by
            simp [filteredCart]
          rw [h1, h2]
          exact ih acc tot hrest
        · have hany : allowed.any (fun p => p.id == pid) = true := by
            rcases hrestc with h | h
            · exact absurd h hz
            · exact h
          have hsome : (allowed.find? (fun p => p.id == pid)).isSome = true :=
            List.find?_isSome.mpr (List.any_eq_true.mp hany)
          obtain ⟨p, hp⟩ := Option.isSome_iff_exists.mp hsome
          have hpos : 0 < q := lt_of_le_of_ne hq0 (Ne.symm hz)
          have hnle : ¬ q ≤ 0 := not_le.mpr hpos
          have h1 : processItems allowed (⟨JVal.jint pid, JVal.jint q⟩ :: rest) acc tot =
              processItems allowed rest (acc ++ [(p, q)]) (tot + p.price_cents * q) := by
            simp [processItems, hnlt, hz, hp]
          have h2 : filteredCart allowed (⟨JVal.jint pid, JVal.jint q⟩ :: rest) =
              (p, q) :: filteredCart allowed rest := by
            simp [filteredCart, hnle, hp]
          rw [h1, h2, ih _ _ hrest]
          simp [List.append_assoc, add_assoc]

theorem filteredCart_ne_nil (allowed : List Product) (items : List CartLine)
    (hvalid : ∀ c ∈ items, lineValid allowed c = true)
    (hpos : ∃ c ∈ items, posLine c = true) :
    filteredCart allowed items ≠ [] := by
  obtain ⟨c, hmem, hposc⟩ := hpos
  intro hnil
  have hdrop := (List.filterMap_eq_nil_iff.mp hnil) c hmem
  have hv := hvalid c hmem
  obtain ⟨pidv, qv⟩ := c
  cases pidv with
  | jother => simp [lineValid] at hv
  | jint pid =>
    cases qv with
    | jother => simp [posLine] at hposc
    | jint q =>
      have hq : 0 < q := by simpa [posLine] using hposc
      simp only [lineValid, Bool.and_eq_true, Bool.or_eq_true, decide_eq_true_eq] at hv
      obtain ⟨-, hrestc⟩ := hv
      have hany : allowed.any (fun p => p.id == pid) = true := by
        rcases hrestc with h | h
        · exact absurd h (by omega)
        · exact h
      have hsome : (allowed.find? (fun p => p.id == pid)).isSome = true :=
        List.find?_isSome.mpr (List.any_eq_true.mp hany)
      obtain ⟨p, hp⟩ := Option.isSome_iff_exists.mp hsome
      have hnle : ¬ q ≤ 0 := not_le.mpr hq
      simp [hnle, hp] at hdrop

theorem create_real_eval (catalog : List Product) (items : List CartLine)
    (l : Ledger) (sid fid : String)
    (hvalid : ∀ c ∈ items, lineValid (allowedProducts catalog) c = true)
    (hfc : filteredCart (allowedProducts catalog) items ≠ []) :
    create_checkout_session false true catalog (.ok sid) fid l items =
      match persistOrder l sid .PENDING
          (((filteredCart (allowedProducts catalog) items).map
              (fun x => x.1.price_cents * x.2)).sum)
          (filteredCart (allowedProducts catalog) items) with
      | none => (l, .conflict)
      | some l2 => (l2, .ok sid false) := by
  have hne : items ≠ [] := by
    intro h
    subst h
    exact hfc rfl
  have hie : items.isEmpty = false := isEmpty_false_of_ne_nil hne
  have hfce : (filteredCart (allowedProducts catalog) items).isEmpty = false :=
    isEmpty_false_of_ne_nil hfc
  have hpe := processItems_ok_of_valid (allowedProducts catalog) items [] 0 hvalid
  simp only [List.nil_append, zero_add] at hpe
  cases hper : persistOrder l sid .PENDING
      (((filteredCart (allowedProducts catalog) items).map
          (fun x => x.1.price_cents * x.2)).sum)
      (filteredCart (allowedProducts catalog) items) with
  | none => simp [create_checkout_session, hie, hpe, hfce, hper]
  | some l2 => simp [create_checkout_session, hie, hpe, hfce, hper]

theorem create_demo_eval (kp : Bool) (catalog : List Product) (items : List CartLine)
    (sr : Except StripeErr String) (l : Ledger) (fid : String)
    (hvalid : ∀ c ∈ items, lineValid (allowedProducts catalog) c = true)
    (hfc : filteredCart (allowedProducts catalog) items ≠ []) :
    create_checkout_session true kp catalog sr fid l items =
      match persistOrder l fid .PAID
          (((filteredCart (allowedProducts catalog) items).map
              (fun x => x.1.price_cents * x.2)).sum)
          (filteredCart (allowedProducts catalog) items) with
      | none => (l, .serverError)
      | some l2 => (l2, .ok fid true) := by
  have hne : items ≠ [] := by
    intro h
    subst h
    exact hfc rfl
  have hie : items.isEmpty = false := isEmpty_false_of_ne_nil hne
  have hfce : (filteredCart (allowedProducts catalog) items).isEmpty = false :=
    isEmpty_false_of_ne_nil hfc
  have hpe := processItems_ok_of_valid (allowedProducts catalog) items [] 0 hvalid
  simp only [List.nil_append, zero_add] at hpe
  cases hper : persistOrder l fid .PAID
      (((filteredCart (allowedProducts catalog) items).map
          (fun x => x.1.price_cents * x.2)).sum)
      (filteredCart (allowedProducts catalog) items) with
  | none => simp [create_checkout_session, hie, hpe, hfce, hper]
  | some l2 => simp [create_checkout_session, hie, hpe, hfce, hper]

/-! Claim theorems. -/

/-- Claim C7: a verified checkout.session.completed event whose session
identifier matches no existing order is acknowledged with the success
response, and the ledger is left completely unchanged. -/
theorem c7_unknown_session_ack (l : Ledger) (sid : String)
    (h : findOrder l sid = none) :
    stripe_webhook true (.ok "checkout.session.completed" sid) l = (l, .ack) := by
  rw [webhook_completed true l sid rfl]
  simp [handleCompleted, h]

theorem c7_unknown_session_ack_witness :
    findOrder Ledger.empty "sess_xyz" = none ∧
    stripe_webhook true (.ok "checkout.session.completed" "sess_xyz") Ledger.empty =
      (Ledger.empty, .ack) :=
  ⟨by decide, c7_unknown_session_ack Ledger.empty "sess_xyz" (by decide)⟩

/-- Claim C10: a status query whose session_id parameter is absent or the
empty string gets the 400 'Missing session_id' error, not the PENDING
answer given to a non-empty unknown identifier. -/
theorem c10_missing_session_id (l : Ledger) :
    order_status l none = (400, "Missing session_id") ∧
    order_status l (some "") = (400, "Missing session_id") ∧
    order_status l none ≠ (200, "PENDING") := by
  refine ⟨rfl, rfl, ?_⟩
  have h1 : order_status l none = (400, "Missing session_id") := rfl
  rw [h1]
  decide

/-- Claim C8 counterexample: the empty string is a session identifier
matching no order in the empty ledger, yet the status query answers the
400 error for it, not PENDING — refuting the claim's universal
quantification over all session identifiers. -/
theorem c8_empty_sid_cex :
    findOrder Ledger.empty "" = none ∧
    order_status Ledger.empty (some "") = (400, "Missing session_id") ∧
    order_status Ledger.empty (some "") ≠ (200, "PENDING") := by decide

/-- Claim C8 (amended): for every NON-EMPTY session identifier matching
no existing order the status query answers PENDING rather than an error,
and the status query never mutates the ledger (its system step is the
identity). -/
theorem c8_unknown_session_pending (l : Ledger) (sid : String) (p : Option String)
    (hne : sid ≠ "") (h : findOrder l sid = none) :
    order_status l (some sid) = (200, "PENDING") ∧
    stepLedger l (.statusQuery p) = l := by
  refine ⟨?_, rfl⟩
  simp [order_status, hne, h]

theorem c8_unknown_session_pending_witness :
    "sess_xyz" ≠ "" ∧ findOrder Ledger.empty "sess_xyz" = none ∧
    (order_status Ledger.empty (some "sess_xyz") = (200, "PENDING") ∧
     stepLedger Ledger.empty (.statusQuery (some "sess_xyz")) = Ledger.empty) :=
  ⟨by decide, by decide,
   c8_unknown_session_pending Ledger.empty "sess_xyz" (some "sess_xyz")
     (by decide) (by decide)⟩

/-- Claim C4 counterexample: a one-line cart whose product id 42 is not
in the catalog and whose quantity is negative gets the invalid-quantity
error, not the unknown-product error the claim's validation order
requires. -/
theorem c4_unknown_product_negative_qty_cex :
    create_checkout_session false true cat3 (.ok "s") "d" Ledger.empty
      [⟨.jint 42, .jint (-1)⟩] = (Ledger.empty, .badRequest (.invalidQuantity 42)) ∧
    (allowedProducts cat3).find? (fun p => p.id == 42) = none ∧
    CheckoutErr.invalidQuantity 42 ≠ CheckoutErr.productNotFound 42 := by decide

/-- Claim C4 (amended): validation runs per cart line in cart order,
first failure wins; within a line the quantity check precedes the
catalog lookup, so a line whose quantity is negative or not an integer
yields the invalid-quantity error whether or not its product id is
listed. -/
theorem c4_quantity_error_before_unknown_product
    (demoMode keyPresent : Bool) (catalog : List Product)
    (sr : Except StripeErr String) (fid : String) (l : Ledger)
    (pid : Int) (q : JVal) (rest : List CartLine)
    (hq : qtyInvalid q = true) :
    create_checkout_session demoMode keyPresent catalog sr fid l
      (⟨.jint pid, q⟩ :: rest) = (l, .badRequest (.invalidQuantity pid)) := by
  cases q with
  | jother => simp [create_checkout_session, processItems]
  | jint n =>
    have hn : n < 0 := by simpa [qtyInvalid] using hq
    simp [create_checkout_session, processItems, hn]

theorem c4_quantity_error_before_unknown_product_witness :
    qtyInvalid (.jint (-5)) = true ∧
    create_checkout_session false true cat3 (.ok "s") "d" Ledger.empty
      [⟨.jint 42, .jint (-5)⟩] = (Ledger.empty, .badRequest (.invalidQuantity 42)) :=
  ⟨by decide,
   c4_quantity_error_before_unknown_product false true cat3 (.ok "s") "d"
     Ledger.empty 42 (.jint (-5)) [] (by decide)⟩

/-- Claim C6: for every valid cart with at least one positive-quantity
line of listed products, checkout (real mode) atomically creates exactly
one PENDING order whose total is the exact integer sum of
price_cents times quantity over the filtered cart, with line items
exactly matching the filtered cart, and answers the session id. -/
theorem c6_total_and_items (catalog : List Product) (items : List CartLine)
    (l : Ledger) (sid fid : String)
    (hvalid : ∀ c ∈ items, lineValid (allowedProducts catalog) c = true)
    (hpos : ∃ c ∈ items, posLine c = true)
    (hnodup : hasDupProduct (filteredCart (allowedProducts catalog) items) = false)
    (hfresh : sessionTaken l sid = false) :
    create_checkout_session false true catalog (.ok sid) fid l items =
      ({ orders := l.orders ++ [⟨sid, .PENDING,
            ((filteredCart (allowedProducts catalog) items).map
              (fun x => x.1.price_cents * x.2)).sum⟩],
         items := l.items ++ (filteredCart (allowedProducts catalog) items).map
              (fun x => ⟨sid, x.1.id, x.2⟩) },
       .ok sid false) := by
  have hfc := filteredCart_ne_nil (allowedProducts catalog) items hvalid hpos
  rw [create_real_eval catalog items l sid fid hvalid hfc]
  simp [persistOrder, hfresh, hnodup]

/-- The spec's concrete scenario: catalog = seeded 3 products, cart =
Laptop x1 plus Mouse x2, total 99999 + 2 * 2999 = 105997 with two line
items, PENDING. -/
theorem c6_total_and_items_witness :
    (∀ c ∈ [CartLine.mk (.jint 1) (.jint 1), CartLine.mk (.jint 2) (.jint 2)],
        lineValid (allowedProducts cat3) c = true) ∧
    (∃ c ∈ [CartLine.mk (.jint 1) (.jint 1), CartLine.mk (.jint 2) (.jint 2)],
        posLine c = true) ∧
    hasDupProduct (filteredCart (allowedProducts cat3)
        [CartLine.mk (.jint 1) (.jint 1), CartLine.mk (.jint 2) (.jint 2)]) = false ∧
    sessionTaken Ledger.empty "cs_a" = false ∧
    create_checkout_session false true cat3 (.ok "cs_a") "d" Ledger.empty
        [CartLine.mk (.jint 1) (.jint 1), CartLine.mk (.jint 2) (.jint 2)] =
      ({ orders := Ledger.empty.orders ++ [⟨"cs_a", .PENDING,
            ((filteredCart (allowedProducts cat3)
                [CartLine.mk (.jint 1) (.jint 1), CartLine.mk (.jint 2) (.jint 2)]).map
              (fun x => x.1.price_cents * x.2)).sum⟩],
         items := Ledger.empty.items ++ (filteredCart (allowedProducts cat3)
                [CartLine.mk (.jint 1) (.jint 1), CartLine.mk (.jint 2) (.jint 2)]).map
              (fun x => ⟨"cs_a", x.1.id, x.2⟩) },
       .ok "cs_a" false) ∧
    ((filteredCart (allowedProducts cat3)
        [CartLine.mk (.jint 1) (.jint 1), CartLine.mk (.jint 2) (.jint 2)]).map
      (fun x => x.1.price_cents * x.2)).sum = 105997 :=
  ⟨by decide, by decide, by decide, by decide,
   c6_total_and_items cat3 _ Ledger.empty "cs_a" "d"
     (by decide) (by decide) (by decide) (by decide),
   by decide⟩

/-- Claim C5 counterexample: in demo mode a colliding session identifier
(an order for "demo_x" already persisted, and the synthesized id equals
"demo_x") makes checkout answer the generic 500 server error, not the
409 DuplicateSession conflict the claim requires for both modes; the
ledger is unchanged. -/
theorem c5_demo_collision_cex :
    sessionTaken ⟨[⟨"demo_x", .PAID, 100⟩], []⟩ "demo_x" = true ∧
    create_checkout_session true true cat3 (.ok "s") "demo_x"
        ⟨[⟨"demo_x", .PAID, 100⟩], []⟩ [⟨.jint 1, .jint 1⟩] =
      (⟨[⟨"demo_x", .PAID, 100⟩], []⟩, .serverError) ∧
    CheckoutResp.serverError ≠ CheckoutResp.conflict ∧
    checkoutHttpStatus .serverError = 500 := by decide

/-- Claim C5 (amended): a session-identifier collision makes the atomic
write fail closed with no partial write in both modes, but the surfaced
response differs: real mode catches the IntegrityError and answers the
409 conflict, while demo mode's write is outside that handler and the
collision surfaces as the generic 500 server error. -/
theorem c5_collision_fails_closed (catalog : List Product) (items : List CartLine)
    (l : Ledger) (sid fid : String) (kp : Bool) (sr : Except StripeErr String)
    (hvalid : ∀ c ∈ items, lineValid (allowedProducts catalog) c = true)
    (hpos : ∃ c ∈ items, posLine c = true)
    (hcol : sessionTaken l sid = true) :
    create_checkout_session false true catalog (.ok sid) fid l items = (l, .conflict) ∧
    create_checkout_session true kp catalog sr sid l items = (l, .serverError) ∧
    checkoutHttpStatus .conflict = 409 ∧ checkoutHttpStatus .serverError = 500 := by
  have hfc := filteredCart_ne_nil (allowedProducts catalog) items hvalid hpos
  refine ⟨?_, ?_, rfl, rfl⟩
  · rw [create_real_eval catalog items l sid fid hvalid hfc]
    simp [persistOrder, hcol]
  · rw [create_demo_eval kp catalog items sr l sid hvalid hfc]
    simp [persistOrder, hcol]

theorem c5_collision_fails_closed_witness :
    (∀ c ∈ [CartLine.mk (.jint 1) (.jint 1)],
        lineValid (allowedProducts cat3) c = true) ∧
    (∃ c ∈ [CartLine.mk (.jint 1) (.jint 1)], posLine c = true) ∧
    sessionTaken ⟨[⟨"demo_x", .PAID, 100⟩], []⟩ "demo_x" = true ∧
    (create_checkout_session false true cat3 (.ok "demo_x") "d"
        ⟨[⟨"demo_x", .PAID, 100⟩], []⟩ [CartLine.mk (.jint 1) (.jint 1)] =
      (⟨[⟨"demo_x", .PAID, 100⟩], []⟩, .conflict) ∧
     create_checkout_session true true cat3 (.ok "s") "demo_x"
        ⟨[⟨"demo_x", .PAID, 100⟩], []⟩ [CartLine.mk (.jint 1) (.jint 1)] =
      (⟨[⟨"demo_x", .PAID, 100⟩], []⟩, .serverError) ∧
     checkoutHttpStatus .conflict = 409 ∧ checkoutHttpStatus .serverError = 500) :=
  ⟨by decide, by decide, by decide,
   c5_collision_fails_closed cat3 _ ⟨[⟨"demo_x", .PAID, 100⟩], []⟩ "demo_x" "d"
     true (.ok "s") (by decide) (by decide) (by decide)⟩

/-- Claim C9: a cart listing the same catalog product on two or more
distinct positive-quantity lines passes validation, the write then
violates the (order, product) uniqueness constraint, and the resulting
IntegrityError surfaces as the 409 conflict in real mode and the
generic 500 server error in demo mode, with no order persisted in
either case. -/
theorem c9_duplicate_product_lines (catalog : List Product) (items : List CartLine)
    (l : Ledger) (sid fid : String) (kp : Bool) (sr : Except StripeErr String)
    (hvalid : ∀ c ∈ items, lineValid (allowedProducts catalog) c = true)
    (hdup : hasDupProduct (filteredCart (allowedProducts catalog) items) = true) :
    processItems (allowedProducts catalog) items [] 0 =
      .ok (filteredCart (allowedProducts catalog) items,
           ((filteredCart (allowedProducts catalog) items).map
             (fun x => x.1.price_cents * x.2)).sum) ∧
    create_checkout_session false true catalog (.ok sid) fid l items = (l, .conflict) ∧
    create_checkout_session true kp catalog sr fid l items = (l, .serverError) ∧
    checkoutHttpStatus .conflict = 409 ∧ checkoutHttpStatus .serverError = 500 := by
  have hfc : filteredCart (allowedProducts catalog) items ≠ [] := by
    intro h
    rw [h] at hdup
    simp [hasDupProduct] at hdup
  refine ⟨?_, ?_, ?_, rfl, rfl⟩
  · have := processItems_ok_of_valid (allowedProducts catalog) items [] 0 hvalid
    simpa using this
  · rw [create_real_eval catalog items l sid fid hvalid hfc]
    simp [persistOrder, hdup]
  · rw [create_demo_eval kp catalog items sr l fid hvalid hfc]
    simp [persistOrder, hdup]

theorem c9_duplicate_product_lines_witness :
    (∀ c ∈ [CartLine.mk (.jint 1) (.jint 1), CartLine.mk (.jint 1) (.jint 2)],
        lineValid (allowedProducts cat3) c = true) ∧
    hasDupProduct (filteredCart (allowedProducts cat3)
        [CartLine.mk (.jint 1) (.jint 1), CartLine.mk (.jint 1) (.jint 2)]) = true ∧
    (processItems (allowedProducts cat3)
        [CartLine.mk (.jint 1) (.jint 1), CartLine.mk (.jint 1) (.jint 2)] [] 0 =
      .ok (filteredCart (allowedProducts cat3)
             [CartLine.mk (.jint 1) (.jint 1), CartLine.mk (.jint 1) (.jint 2)],
           ((filteredCart (allowedProducts cat3)
               [CartLine.mk (.jint 1) (.jint 1), CartLine.mk (.jint 1) (.jint 2)]).map
             (fun x => x.1.price_cents * x.2)).sum) ∧
     create_checkout_session false true cat3 (.ok "cs_b") "d" Ledger.empty
        [CartLine.mk (.jint 1) (.jint 1), CartLine.mk (.jint 1) (.jint 2)] =
      (Ledger.empty, .conflict) ∧
     create_checkout_session true true cat3 (.ok "s") "d" Ledger.empty
        [CartLine.mk (.jint 1) (.jint 1), CartLine.mk (.jint 1) (.jint 2)] =
      (Ledger.empty, .serverError) ∧
     checkoutHttpStatus .conflict = 409 ∧ checkoutHttpStatus .serverError = 500) :=
  ⟨by decide, by decide,
   c9_duplicate_product_lines cat3 _ Ledger.empty "cs_b" "d" true (.ok "s")
     (by decide) (by decide)⟩

theorem deliverCompletedN_succ (l : Ledger) (sid : String) (j : Nat) :
    deliverCompletedN sid (j + 1) l =
      (handleCompleted (deliverCompletedN sid j l) sid).1 := by
  show (stripe_webhook true (.ok "checkout.session.completed" sid)
    (deliverCompletedN sid j l)).1 = _
  rw [webhook_completed true _ sid rfl]

theorem deliverCompletedN_status (l : Ledger) (sid : String)
    (h : statusOf l sid = some .PENDING) (k : Nat) :
    statusOf (deliverCompletedN sid k l) sid =
      some (if k = 0 then .PENDING else .PAID) := by
  induction k with
  | zero => simpa using h
  | succ j ih =>
    by_cases hj : j = 0
    · subst hj
      simp only [if_pos rfl] at ih
      rw [deliverCompletedN_succ l sid 0, handleCompleted_pending _ _ ih]
      simpa using statusOf_map_setPaid (deliverCompletedN sid 0 l) sid .PENDING ih
    · have hpj : statusOf (deliverCompletedN sid j l) sid = some .PAID := by
        rw [ih, if_neg hj]
      rw [deliverCompletedN_succ l sid j, handleCompleted_paid _ _ hpj]
      simpa using hpj

theorem deliverCompletedN_stable (l : Ledger) (sid : String)
    (h : statusOf l sid = some .PENDING) (k : Nat) (hk : 1 ≤ k) :
    deliverCompletedN sid k l = deliverCompletedN sid 1 l := by
  induction k with
  | zero => omega
  | succ j ih =>
    by_cases hj : j = 0
    · subst hj
      rfl
    · have hpj : statusOf (deliverCompletedN sid j l) sid = some .PAID := by
        rw [deliverCompletedN_status l sid h j, if_neg hj]
      rw [deliverCompletedN_succ l sid j, handleCompleted_paid _ _ hpj]
      exact ih (by omega)

theorem deliver_resp_ack (l : Ledger) (sid : String) (k : Nat) :
    (stripe_webhook true (.ok "checkout.session.completed" sid)
      (deliverCompletedN sid k l)).2 = .ack := by
  rw [webhook_completed true _ sid rfl]
  exact handleCompleted_ack _ _

theorem countP_eqZero_range (n : Nat) (hn : 1 ≤ n) :
    (List.range n).countP (fun k => decide (k = 0)) = 1 := by
  induction n with
  | zero => omega
  | succ j ih =>
    by_cases hj : j = 0
    · subst hj
      decide
    · rw [List.range_succ, List.countP_append, ih (by omega)]
      simp [hj]

theorem transitionCount_eq_one (l : Ledger) (sid : String) (n : Nat)
    (hn : 1 ≤ n) (h : statusOf l sid = some .PENDING) :
    transitionCount sid l n = 1 := by
  unfold transitionCount
  have hpred : ∀ k ∈ List.range n,
      (decide (statusOf (deliverCompletedN sid k l) sid ≠
        statusOf (deliverCompletedN sid (k + 1) l) sid)) = true ↔
      decide (k = 0) = true := by
    intro k _
    by_cases hk : k = 0
    · subst hk
      rw [deliverCompletedN_status l sid h 0, deliverCompletedN_status l sid h 1]
      simp
    · rw [deliverCompletedN_status l sid h k, deliverCompletedN_status l sid h (k + 1),
        if_neg hk, if_neg (by omega : ¬ k + 1 = 0)]
      simp [hk]
  rw [List.countP_congr hpred]
  exact countP_eqZero_range n hn

/-- Claim C1: delivering the same valid completion event N >= 1 times to
a PENDING order's session yields exactly one status transition, the
final status PAID, a success acknowledgment for every delivery, and an
entirely unchanged ledger for every delivery after the first. -/
theorem c1_completed_delivery_idempotent (l : Ledger) (sid : String) (n : Nat)
    (hn : 1 ≤ n) (h : statusOf l sid = some .PENDING) :
    transitionCount sid l n = 1 ∧
    statusOf (deliverCompletedN sid n l) sid = some .PAID ∧
    (∀ k, k < n → (stripe_webhook true (.ok "checkout.session.completed" sid)
        (deliverCompletedN sid k l)).2 = .ack) ∧
    (∀ k, 1 ≤ k → k ≤ n → deliverCompletedN sid k l = deliverCompletedN sid 1 l) := by
  refine ⟨transitionCount_eq_one l sid n hn h, ?_, ?_, ?_⟩
  · rw [deliverCompletedN_status l sid h n, if_neg (by omega : ¬ n = 0)]
  · intro k _
    exact deliver_resp_ack l sid k
  · intro k hk _
    exact deliverCompletedN_stable l sid h k hk

theorem c1_completed_delivery_idempotent_witness :
    1 ≤ 3 ∧
    statusOf ⟨[⟨"s1", .PENDING, 99999⟩], [⟨"s1", 1, 1⟩]⟩ "s1" = some .PENDING ∧
    transitionCount "s1" ⟨[⟨"s1", .PENDING, 99999⟩], [⟨"s1", 1, 1⟩]⟩ 3 = 1 ∧
    statusOf (deliverCompletedN "s1" 3
      ⟨[⟨"s1", .PENDING, 99999⟩], [⟨"s1", 1, 1⟩]⟩) "s1" = some .PAID :=
  ⟨by decide, by decide,
   (c1_completed_delivery_idempotent ⟨[⟨"s1", .PENDING, 99999⟩], [⟨"s1", 1, 1⟩]⟩
     "s1" 3 (by decide) (by decide)).1,
   (c1_completed_delivery_idempotent ⟨[⟨"s1", .PENDING, 99999⟩], [⟨"s1", 1, 1⟩]⟩
     "s1" 3 (by decide) (by decide)).2.1⟩

theorem setFailed_session_id (sid : String) (o : Order) :
    (setFailed sid o).session_id = o.session_id := by
  unfold setFailed
  split <;> rfl

theorem statusOf_persistOrder {l l2 : Ledger} {sid s2 : String} {st st2 : OrderStatus}
    {t : Int} {ois : List (Product × Int)}
    (h : statusOf l sid = some st)
    (hp : persistOrder l s2 st2 t ois = some l2) :
    statusOf l2 sid = some st := by
  obtain ⟨o, ho, hst, hsid⟩ := findOrder_some l sid st h
  have ho2 : l.orders.find? (fun o3 => o3.session_id == sid) = some o := ho
  unfold persistOrder at hp
  split at hp
  · cases hp
  · cases hp
    unfold statusOf findOrder
    show Option.map Order.status
      ((l.orders ++ [Order.mk s2 st2 t]).find? (fun o3 => o3.session_id == sid)) = some st
    rw [List.find?_append, ho2]
    simp [hst]

theorem statusOf_checkout_step (dm kp : Bool) (catalog : List Product)
    (sr : Except StripeErr String) (fid : String) (l : Ledger) (items : List CartLine)
    (sid : String) (st : OrderStatus) (h : statusOf l sid = some st) :
    statusOf (create_checkout_session dm kp catalog sr fid l items).1 sid = some st := by
  unfold create_checkout_session
  split
  · simpa using h
  · split
    · simpa using h
    · split
      · simpa using h
      · split
        · split
          · simpa using h
          · rename_i l2 hp
            simpa using statusOf_persistOrder h hp
        · split
          · simpa using h
          · simpa using h
          · split
            · simpa using h
            · rename_i l2 hp
              simpa using statusOf_persistOrder h hp

theorem statusOf_map_setPaid_paid (l : Ledger) (sid sid2 : String)
    (h : statusOf l sid = some .PAID) :
    statusOf { l with orders := l.orders.map (setPaid sid2) } sid = some .PAID := by
  obtain ⟨o, ho, hst, hsid⟩ := findOrder_some l sid .PAID h
  have ho2 : l.orders.find? (fun o3 => o3.session_id == sid) = some o := ho
  unfold statusOf findOrder
  rw [find?_map_presId (setPaid sid2) (setPaid_session_id sid2) l.orders sid, ho2]
  show some ((setPaid sid2 o).status) = some .PAID
  unfold setPaid
  split <;> simp [hst]

theorem statusOf_webhook_paid (sc : Bool) (v : VerifyResult) (l : Ledger) (sid : String)
    (h : statusOf l sid = some .PAID) :
    statusOf (stripe_webhook sc v l).1 sid = some .PAID := by
  unfold stripe_webhook
  split
  · simpa using h
  · split
    · simpa using h
    · simpa using h
    · split
      · unfold handleCompleted
        split
        · simpa using h
        · split
          · simpa using h
          · simpa using statusOf_map_setPaid_paid l sid _ h
      · simpa using h

theorem statusOf_markFailed_paid (l : Ledger) (sid s2 : String)
    (h : statusOf l sid = some .PAID) :
    statusOf (markFailed l s2) sid = some .PAID := by
  obtain ⟨o, ho, hst, hsid⟩ := findOrder_some l sid .PAID h
  have ho2 : l.orders.find? (fun o3 => o3.session_id == sid) = some o := ho
  unfold markFailed statusOf findOrder
  rw [find?_map_presId (setFailed s2) (setFailed_session_id s2) l.orders sid, ho2]
  show some ((setFailed s2 o).status) = some .PAID
  unfold setFailed
  rw [if_neg (by simp [hst])]
  rw [hst]

/-- Claim C2 (amended): once a reachable order is PAID, no operation of
the system (checkout, webhook, status query, or the spec's abandon path)
ever changes its status again.  FAILED however is NOT protected: the
confirmation handler's idempotency check tests only for PAID, so a
valid completion event moves a FAILED order to PAID (see the
counterexample); within the code shown no operation creates a FAILED
order. -/
theorem c2_paid_terminal (l : Ledger) (a : Action) (sid : String)
    (h : statusOf l sid = some .PAID) :
    statusOf (stepLedger l a) sid = some .PAID := by
  cases a with
  | checkout dm kp catalog sr fid items =>
      exact statusOf_checkout_step dm kp catalog sr fid l items sid .PAID h
  | webhook sc v => exact statusOf_webhook_paid sc v l sid h
  | statusQuery p => simpa using h
  | abandon s2 => exact statusOf_markFailed_paid l sid s2 h

theorem c2_paid_terminal_witness :
    statusOf ⟨[⟨"s2", .PAID, 5⟩], []⟩ "s2" = some .PAID ∧
    statusOf (stepLedger ⟨[⟨"s2", .PAID, 5⟩], []⟩
      (.webhook true (.ok "checkout.session.completed" "s2"))) "s2" = some .PAID :=
  ⟨by decide,
   c2_paid_terminal ⟨[⟨"s2", .PAID, 5⟩], []⟩
     (.webhook true (.ok "checkout.session.completed" "s2")) "s2" (by decide)⟩

/-- Claim C2 counterexample: a ledger holding a FAILED order is reachable
(checkout creates the PENDING order for session "s1", the spec's
abandoned/cancelled path fails it), and the confirmation handler applied
to it performs a further transition, FAILED to PAID — so PAID and FAILED
are not both terminal as claimed. -/
theorem c2_failed_not_terminal_cex :
    Reachable ⟨[⟨"s1", .FAILED, 99999⟩], [⟨"s1", 1, 1⟩]⟩ ∧
    statusOf ⟨[⟨"s1", .FAILED, 99999⟩], [⟨"s1", 1, 1⟩]⟩ "s1" = some .FAILED ∧
    statusOf (stepLedger ⟨[⟨"s1", .FAILED, 99999⟩], [⟨"s1", 1, 1⟩]⟩
      (.webhook true (.ok "checkout.session.completed" "s1"))) "s1" = some .PAID := by
  refine ⟨?_, by decide, by decide⟩
  have h1 := Reachable.step
    (.checkout false true cat3 (.ok "s1") "d" [⟨.jint 1, .jint 1⟩]) Reachable.init
  have e1 : stepLedger Ledger.empty
      (.checkout false true cat3 (.ok "s1") "d" [⟨.jint 1, .jint 1⟩]) =
      ⟨[⟨"s1", .PENDING, 99999⟩], [⟨"s1", 1, 1⟩]⟩ := by decide
  rw [e1] at h1
  have h2 := Reachable.step (.abandon "s1") h1
  have e2 : stepLedger ⟨[⟨"s1", .PENDING, 99999⟩], [⟨"s1", 1, 1⟩]⟩ (.abandon "s1") =
      ⟨[⟨"s1", .FAILED, 99999⟩], [⟨"s1", 1, 1⟩]⟩ := by decide
  rw [e2] at h2
  exact h2

theorem raceInv_init : raceInv raceInit := by
  refine ⟨?_, ?_, ?_, ?_, ?_, ?_, ?_⟩ <;> simp [raceInit, wrotePC, isDone]

theorem raceStep_thread1 (s : RaceState) (h : raceInv s) :
    raceInv (raceStep s false) := by
  obtain ⟨i1, i2, i3, i4, i5, i6, i7⟩ := h
  cases hpc : s.pc1 with
  | start =>
    by_cases hl : s.lock = .free
    · simp only [raceStep, hpc, if_pos hl]
      refine ⟨?_, ?_, ?_, ?_, ?_, ?_, ?_⟩
      · intro ob hob
        injection hob with hx
        exact ⟨rfl, hx.symm⟩
      · intro ob hob
        have h2l := (i2 ob hob).1
        rw [hl] at h2l
        simp at h2l
      · rw [hpc] at i3
        simpa [wrotePC] using i3
      · simp [wrotePC]
      · intro w r hwr
        simp at hwr
      · exact i6
      · intro hd
        simp [isDone] at hd
    · simp only [raceStep, hpc, if_neg hl]
      exact ⟨i1, i2, i3, i4, i5, i6, i7⟩
  | locked ob =>
    obtain ⟨hlk, hob⟩ := i1 ob hpc
    by_cases hp : ob = .PAID
    · simp only [raceStep, hpc, if_pos hp]
      refine ⟨?_, ?_, ?_, ?_, ?_, ?_, ?_⟩
      · intro ob2 hob2
        simp at hob2
      · intro ob2 hob2
        have h2l := (i2 ob2 hob2).1
        rw [hlk] at h2l
        simp at h2l
      · rw [hpc] at i3
        simpa [wrotePC] using i3
      · simp [wrotePC]
      · intro w r hwr
        injection hwr with hw hr
        exact hr.symm
      · exact i6
      · intro _ _
        rw [← hob]
        exact hp
    · have hsnp : ¬ s.status = .PAID := fun hc => hp (hob.trans hc)
      have hw2 : ¬ wrotePC s.pc2 = true := fun hw => hsnp (i3.mpr (Or.inr hw))
      simp only [raceStep, hpc, if_neg hp]
      refine ⟨?_, ?_, ?_, ?_, ?_, ?_, ?_⟩
      · intro ob2 hob2
        simp at hob2
      · intro ob2 hob2
        have h2l := (i2 ob2 hob2).1
        rw [hlk] at h2l
        simp at h2l
      · simp [wrotePC]
      · intro hcon
        exact hw2 hcon.2
      · intro w r hwr
        injection hwr with hw hr
        exact hr.symm
      · exact i6
      · intro _ _
        rfl
  | done w r =>
    simp only [raceStep, hpc]
    exact ⟨i1, i2, i3, i4, i5, i6, i7⟩

theorem raceStep_thread2 (s : RaceState) (h : raceInv s) :
    raceInv (raceStep s true) := by
  obtain ⟨i1, i2, i3, i4, i5, i6, i7⟩ := h
  cases hpc : s.pc2 with
  | start =>
    by_cases hl : s.lock = .free
    · simp only [raceStep, hpc, if_pos hl]
      refine ⟨?_, ?_, ?_, ?_, ?_, ?_, ?_⟩
      · intro ob hob
        have h1l := (i1 ob hob).1
        rw [hl] at h1l
        simp at h1l
      · intro ob hob
        injection hob with hx
        exact ⟨rfl, hx.symm⟩
      · rw [hpc] at i3
        simpa [wrotePC] using i3
      · simp [wrotePC]
      · exact i5
      · intro w r hwr
        simp at hwr
      · intro _ hd
        simp [isDone] at hd
    · simp only [raceStep, hpc, if_neg hl]
      exact ⟨i1, i2, i3, i4, i5, i6, i7⟩
  | locked ob =>
    obtain ⟨hlk, hob⟩ := i2 ob hpc
    by_cases hp : ob = .PAID
    · simp only [raceStep, hpc, if_pos hp]
      refine ⟨?_, ?_, ?_, ?_, ?_, ?_, ?_⟩
      · intro ob2 hob2
        have h1l := (i1 ob2 hob2).1
        rw [hlk] at h1l
        simp at h1l
      · intro ob2 hob2
        simp at hob2
      · rw [hpc] at i3
        simpa [wrotePC] using i3
      · simp [wrotePC]
      · exact i5
      · intro w r hwr
        injection hwr with hw hr
        exact hr.symm
      · intro _ _
        rw [← hob]
        exact hp
    · have hsnp : ¬ s.status = .PAID := fun hc => hp (hob.trans hc)
      have hw1 : ¬ wrotePC s.pc1 = true := fun hw => hsnp (i3.mpr (Or.inl hw))
      simp only [raceStep, hpc, if_neg hp]
      refine ⟨?_, ?_, ?_, ?_, ?_, ?_, ?_⟩
      · intro ob2 hob2
        have h1l := (i1 ob2 hob2).1
        rw [hlk] at h1l
        simp at h1l
      · intro ob2 hob2
        simp at hob2
      · simp [wrotePC]
      · intro hcon
        exact hw1 hcon.1
      · exact i5
      · intro w r hwr
        injection hwr with hw hr
        exact hr.symm
      · intro _ _
        rfl
  | done w r =>
    simp only [raceStep, hpc]
    exact ⟨i1, i2, i3, i4, i5, i6, i7⟩

theorem raceInv_step (s : RaceState) (t : Bool) (h : raceInv s) :
    raceInv (raceStep s t) := by
  cases t with
  | false => exact raceStep_thread1 s h
  | true => exact raceStep_thread2 s h

theorem raceInv_holds (sched : List Bool) : raceInv (runRace sched) := by
  have hfold : ∀ (sch : List Bool) (s : RaceState),
      raceInv s → raceInv (sch.foldl raceStep s) := by
    intro sch
    induction sch with
    | nil => intro s hs; exact hs
    | cons t rest ih => intro s hs; exact ih _ (raceInv_step s t hs)
  exact hfold sched raceInit raceInv_init

theorem race_done_facts (s : RaceState) (hinv : raceInv s)
    (w1 w2 : Bool) (r1 r2 : WebhookOutcome)
    (h1 : s.pc1 = .done w1 r1) (h2 : s.pc2 = .done w2 r2) :
    (w1 = true ∨ w2 = true) ∧ ¬(w1 = true ∧ w2 = true) ∧ r1 = .ack ∧ r2 = .ack := by
  obtain ⟨i1, i2, i3, i4, i5, i6, i7⟩ := hinv
  refine ⟨?_, ?_, i5 w1 r1 h1, i6 w2 r2 h2⟩
  · have hp : s.status = .PAID := i7 (by rw [h1]; rfl) (by rw [h2]; rfl)
    rcases i3.mp hp with hw | hw
    · left
      rw [h1] at hw
      exact hw
    · right
      rw [h2] at hw
      exact hw
  · intro hcon
    exact i4 ⟨by rw [h1]; exact hcon.1, by rw [h2]; exact hcon.2⟩

/-- Claim C3: under every interleaving of two concurrent webhook
invocations for the same PENDING order, the exclusive row lock of
`select_for_update` serializes the load-check-update section, so once
both invocations finish, exactly one performed the PENDING-to-PAID
write (never both) and both returned the success acknowledgment. -/
theorem c3_race_at_most_one_write (sched : List Bool)
    (w1 w2 : Bool) (r1 r2 : WebhookOutcome)
    (h1 : (runRace sched).pc1 = .done w1 r1)
    (h2 : (runRace sched).pc2 = .done w2 r2) :
    (w1 = true ∨ w2 = true) ∧ ¬(w1 = true ∧ w2 = true) ∧ r1 = .ack ∧ r2 = .ack :=
  race_done_facts (runRace sched) (raceInv_holds sched) w1 w2 r1 r2 h1 h2

theorem c3_race_at_most_one_write_witness :
    (runRace [false, false, true, true]).pc1 = .done true .ack ∧
    (runRace [false, false, true, true]).pc2 = .done false .ack ∧
    ((true = true ∨ false = true) ∧ ¬(true = true ∧ false = true) ∧
     WebhookOutcome.ack = .ack ∧ WebhookOutcome.ack = .ack) :=
  ⟨by decide, by decide,
   c3_race_at_most_one_write [false, false, true, true] true false .ack .ack
     (by decide) (by decide)⟩

end Shop
